import Mathlib

/-!
Shallow embedding of the glazier Wayland backend core
(src/backend/wayland/{window.rs, application.rs, mod.rs}).

Modelling conventions:
* `f64` geometry values are idealised as rationals (`Rat`).
* Interior mutability (`Rc<RefCell<WindowProperties>>`) is explicit state
  passing: a handle operation receives the result of upgrading its weak
  reference (`Option WindowProperties`) and returns the updated record.
* A Rust panic (`expect` / `unwrap` / `unreachable!`) is the `none` result
  of an `Option`-returning embedding.
* Calls into the boxed `WinHandler` capability and outbound protocol
  requests are recorded as an `Event` trace in program order, since the
  handler itself is an external capability the core only invokes.
* Channel sends carry an explicit `connected : Bool` flag for whether the
  dispatch-thread receiver is still alive; a successful send is returned
  as the message value.
-/

/-- Stable window identity, derived from the protocol surface object id
(`WindowId(ObjectId)` in window.rs). -/
abbrev WindowId := Nat

/-- Window size in density-independent units (`kurbo::Size`, f64 fields
idealised as rationals). -/
structure Size where
  width : Rat
  height : Rat
  deriving DecidableEq, Repr

/-- Scale factor in x and y (`crate::scale::Scale`). -/
structure Scale where
  x : Rat
  y : Rat
  deriving DecidableEq, Repr

/-- Modelled from the spec: `crate::scale` is not under src/.  The spec
describes `to_px` as converting density-independent units to device
pixels by the scale factor (ScaleFactor is the device-pixel-to-logical
ratio). -/
def Size.to_px (s : Size) (scale : Scale) : Size :=
  ⟨s.width * scale.x, s.height * scale.y⟩

/-- Modelled from the spec: `crate::scale` is not under src/.  `to_dp`
converts device pixels back to density-independent units at the given
scale. -/
def Size.to_dp (s : Size) (scale : Scale) : Size :=
  ⟨s.width / scale.x, s.height / scale.y⟩

/-- Axis-aligned rectangle (`kurbo::Rect`). -/
structure Rect where
  x0 : Rat
  y0 : Rat
  x1 : Rat
  y1 : Rat
  deriving DecidableEq, Repr

/-- A damage region is a collection of rectangles (`Region::EMPTY` plus
`add_rect`). -/
abbrev Region := List Rect

/-- The protocol-level window resource (`xdg::window::Window`), reduced to
the identity of its `wl_surface`, which is all the core ever reads. -/
structure WaylandWindow where
  surface : WindowId
  deriving DecidableEq, Repr

/-- `WindowProperties` from window.rs: the shared record behind
`Rc<RefCell<..>>`, jointly owned by the registry entry and the handles. -/
structure WindowProperties where
  requested_size : Option Size
  current_size : Size
  current_scale : Scale
  wayland_window : Option WaylandWindow
  deriving DecidableEq, Repr

/-- `WindowState` from window.rs.  The boxed `WinHandler` capability is
not data; its invocations are recorded in the `Event` trace instead. -/
structure WindowState where
  wayland_window : WaylandWindow
  properties : WindowProperties
  deriving DecidableEq, Repr

/-- `WaylandState.windows : HashMap<WindowId, WindowState>`, modelled as
an association list with unique keys. -/
abbrev Registry := List (WindowId × WindowState)

/-- `HashMap::get_mut`: first entry with the given key. -/
def lookupW : Registry → WindowId → Option WindowState
  | [], _ => none
  | (k, v) :: rest, w => if k = w then some v else lookupW rest w

/-- In-place mutation through a `get_mut` borrow: replace the entry. -/
def updateW : Registry → WindowId → WindowState → Registry
  | [], _, _ => []
  | (k, v) :: rest, w, nv =>
    if k = w then (k, nv) :: rest else (k, v) :: updateW rest w nv

/-- `HashMap::remove`: drop the entry with the given key. -/
def removeW : Registry → WindowId → Registry
  | [], _ => []
  | (k, v) :: rest, w => if k = w then rest else (k, v) :: removeW rest w

/-- Diagnostics emitted through `tracing` in the modelled paths. -/
inductive LogMsg
  | closeTwice
  | idleWindowGone
  | idleSendInvalidApp
  deriving DecidableEq, Repr

/-- Observable actions of the core, in program order: calls into the
application handler capability, outbound protocol requests, loop-signal
operations and diagnostics. -/
inductive Event
  | propsUpdated (w : WindowId)
  | handlerSize (w : WindowId) (s : Size)
  | handlerScale (w : WindowId) (sc : Scale)
  | handlerPreparePaint (w : WindowId)
  | handlerPaint (w : WindowId) (r : Region)
  | handlerRequestClose (w : WindowId)
  | frameRequested (surface : WindowId)
  | stopCheck (registryEmpty : Bool)
  | loopStop
  | loopWakeup
  | appCallbackEnqueued
  | setMaximized
  | setMinimized
  | unsetMaximized
  | log (m : LogMsg)
  deriving DecidableEq, Repr

/-- `WindowAction` from window.rs: deferred window actions consumed by
the dispatch thread. -/
inductive WindowAction
  | ResizeRequested
  | Close
  deriving DecidableEq, Repr

/-- `ActiveAction::Window(WindowId, WindowAction)`; the enum itself is
declared in repository code outside src/, its shape is fixed by the
`send(ActiveAction::Window(self.id(), action))` call site in window.rs. -/
inductive ActiveAction
  | Window (w : WindowId) (a : WindowAction)
  deriving DecidableEq, Repr

/-- `IdleAction` sent by `IdleHandle`; declared outside src/, its shape is
fixed by the `IdleAction::Callback(..)` / `IdleAction::Token(..)` call
sites in window.rs.  A boxed callback is represented by the window
identity it captures. -/
inductive IdleAction
  | Callback (target : WindowId)
  | Token (w : WindowId) (tok : Nat)
  deriving DecidableEq, Repr

/-- `crate::error::Error`; not under src/, only its existence matters:
`get_scale` is typed `Result<Scale, ShellError>`. -/
inductive ShellError
  | platform
  deriving DecidableEq, Repr

/-- The public window-state enum (`crate::window::WindowState`). -/
inductive PubWindowState
  | Maximized
  | Minimized
  | Restored
  deriving DecidableEq, Repr

/-- `WindowHandle::id`: `WindowId::new(props.wayland_window())`.  Panics
(`none`) if the weak properties reference is dead (`upgrade().unwrap()`)
or the window was closed (`expect("Shouldn't operate on closed window")`). -/
def WindowHandle.id (upgrade : Option WindowProperties) : Option WindowId :=
  match upgrade with
  | none => none
  | some props =>
    match props.wayland_window with
    | none => none
    | some w => some w.surface

/-- `WindowHandle::defer`: sends `ActiveAction::Window(self.id(), action)`
on the loop channel, with `.expect(..)` on the send — a disconnected
receiver is a panic (`none`), not a logged failure. -/
def WindowHandle.defer (upgrade : Option WindowProperties)
    (loopConnected : Bool) (action : WindowAction) : Option ActiveAction :=
  match WindowHandle.id upgrade with
  | none => none
  | some wid =>
    if loopConnected then some (ActiveAction.Window wid action) else none

/-- `WindowHandle::set_size`: store `requested_size` in the properties
cell, then defer `ResizeRequested`.  Returns the updated cell contents
and the enqueued action. -/
def WindowHandle.set_size (upgrade : Option WindowProperties)
    (loopConnected : Bool) (size : Size) :
    Option (WindowProperties × ActiveAction) :=
  match upgrade with
  | none => none
  | some props =>
    let props2 : WindowProperties := { props with requested_size := some size }
    match WindowHandle.defer (some props2) loopConnected WindowAction.ResizeRequested with
    | none => none
    | some msg => some (props2, msg)

/-- `WindowHandle::get_size`: reads `current_size` from the properties
cell; panics (`none`) when the weak reference is dead. -/
def WindowHandle.get_size (upgrade : Option WindowProperties) : Option Size :=
  match upgrade with
  | none => none
  | some props => some props.current_size

/-- `WindowHandle::get_scale`: `Ok(props.current_scale)`; the only
failure mode in the code is the `unwrap` panic inside `properties()`
when the weak reference is dead — it never constructs an `Err`. -/
def WindowHandle.get_scale (upgrade : Option WindowProperties) :
    Option (Except ShellError Scale) :=
  match upgrade with
  | none => none
  | some props => some (Except.ok props.current_scale)

/-- `WindowHandle::close`: `self.defer(WindowAction::Close)`. -/
def WindowHandle.close (upgrade : Option WindowProperties)
    (loopConnected : Bool) : Option ActiveAction :=
  WindowHandle.defer upgrade loopConnected WindowAction.Close

/-- `WindowHandle::set_window_state`: maps the requested state onto a
protocol request; reads the properties cell (panic when dead or closed)
and stores nothing. -/
def WindowHandle.set_window_state (upgrade : Option WindowProperties)
    (st : PubWindowState) : Option (List Event) :=
  match upgrade with
  | none => none
  | some props =>
    match props.wayland_window with
    | none => none
    | some _ =>
      some [match st with
            | PubWindowState.Maximized => Event.setMaximized
            | PubWindowState.Minimized => Event.setMinimized
            | PubWindowState.Restored => Event.unsetMaximized]

/-- `WindowHandle::get_window_state`: warns and returns
`WindowState::Maximized` unconditionally, consulting nothing. -/
def WindowHandle.get_window_state (_upgrade : Option WindowProperties) :
    PubWindowState :=
  PubWindowState.Maximized

/-- `IdleHandle::add_idle_token`: the send result is matched — a failed
send (receiver gone) is logged with `tracing::warn` and swallowed.
Returns the delivered messages and the emitted diagnostics. -/
def IdleHandle.add_idle_token (idleConnected : Bool) (w : WindowId)
    (tok : Nat) : Option (List IdleAction × List Event) :=
  some (if idleConnected
        then ([IdleAction.Token w tok], [])
        else ([], [Event.log LogMsg.idleSendInvalidApp]))

/-- `IdleHandle::add_idle_callback` via `add_idle_state_callback`: the
send result is discarded, so a failed send is silently dropped (no log,
no panic). -/
def IdleHandle.add_idle_callback (idleConnected : Bool) (w : WindowId) :
    Option (List IdleAction × List Event) :=
  some (if idleConnected then ([IdleAction.Callback w], []) else ([], []))

/-- `AppHandle::run_on_main_inner` (application.rs): the idle-channel
send carries `.expect(..)` — a disconnected receiver panics (`none`);
on success the loop is woken. -/
def AppHandle.run_on_main_inner (idleConnected : Bool) : Option (List Event) :=
  if idleConnected
  then some [Event.appCallbackEnqueued, Event.loopWakeup]
  else none

/-- `WindowAction::run` (window.rs): the dispatch-thread consumer of
deferred window actions.  Returns the updated registry and the event
trace, or `none` for the `expect("Can't unset requested size")` panic.
For `ResizeRequested`: a missing registry entry returns silently;
otherwise `current_size` is overwritten with the pending
`requested_size` (which is not cleared), the handler's `size` is
invoked, and a frame callback is requested on the window's surface —
unconditionally.  For `Close`: a remove miss logs "Tried to close the
same window twice" and returns; on success the stop-if-empty policy is
evaluated exactly once and the loop signalled when the registry became
empty. -/
def WindowAction.run (a : WindowAction) (reg : Registry) (window_id : WindowId) :
    Option (Registry × List Event) :=
  match a with
  | WindowAction.ResizeRequested =>
    match lookupW reg window_id with
    | none => some (reg, [])
    | some w =>
      match w.properties.requested_size with
      | none => none
      | some size =>
        let w2 : WindowState :=
          { w with properties := { w.properties with current_size := size } }
        some (updateW reg window_id w2,
              [Event.propsUpdated window_id,
               Event.handlerSize window_id size,
               Event.frameRequested w.wayland_window.surface])
  | WindowAction.Close =>
    match lookupW reg window_id with
    | none => some (reg, [Event.log LogMsg.closeTwice])
    | some _ =>
      let reg2 := removeW reg window_id
      some (reg2,
            Event.stopCheck reg2.isEmpty ::
              (if reg2.isEmpty then [Event.loopStop] else []))

/-- `CompositorHandler::scale_factor_changed` (window.rs): the registry
lookup result is `.expect("Should only get events for real windows")` —
a missing window is a panic (`none`).  Otherwise the new size is the
previous `current_size` taken to device pixels at the old scale and
back to density-independent units at the new uniform scale; both
properties are updated while the cell is held, and only then are the
handler's `scale` and `size` invoked, in that order. -/
def scale_factor_changed (reg : Registry) (surface : WindowId)
    (new_factor : Int) : Option (Registry × List Event) :=
  match lookupW reg surface with
  | none => none
  | some w =>
    let factor : Rat := (new_factor : Rat)
    let scale : Scale := ⟨factor, factor⟩
    let cur_size_raw := w.properties.current_size.to_px w.properties.current_scale
    let new_size := cur_size_raw.to_dp scale
    let w2 : WindowState :=
      { w with properties :=
        { w.properties with current_scale := scale, current_size := new_size } }
    some (updateW reg surface w2,
          [Event.propsUpdated surface,
           Event.handlerScale surface scale,
           Event.handlerSize surface new_size])

/-- The whole-surface damage region built in `CompositorHandler::frame`. -/
def fullRegion : Region := [⟨0, 0, 5000, 5000⟩]

/-- `CompositorHandler::frame` (window.rs): a missing registry entry
returns silently (`let Some(window) = .. else { return }`); otherwise
`prepare_paint` then `paint` with the whole surface dirty. -/
def frame (reg : Registry) (surface : WindowId) (_time : Nat) :
    Option (Registry × List Event) :=
  match lookupW reg surface with
  | none => some (reg, [])
  | some _ =>
    some (reg, [Event.handlerPreparePaint surface,
                Event.handlerPaint surface fullRegion])

/-- `WindowHandler::request_close` (window.rs): a missing registry entry
returns silently; otherwise the handler's `request_close` is forwarded. -/
def request_close (reg : Registry) (surface : WindowId) :
    Option (Registry × List Event) :=
  match lookupW reg surface with
  | none => some (reg, [])
  | some _ => some (reg, [Event.handlerRequestClose surface])

/-- `WindowHandler::configure` (window.rs): resolves the WindowState and
does nothing with it. -/
def configure (reg : Registry) (surface : WindowId) :
    Option (Registry × List Event) :=
  match lookupW reg surface with
  | none => some (reg, [])
  | some _ => some (reg, [])

/-- Sequential processing of deferred actions by the dispatch thread,
accumulating the event trace. -/
def runActions : List (WindowAction × WindowId) → Registry →
    Option (Registry × List Event)
  | [], reg => some (reg, [])
  | (a, w) :: rest, reg =>
    match WindowAction.run a reg w with
    | none => none
    | some (reg2, evs) =>
      match runActions rest reg2 with
      | none => none
      | some (reg3, evs2) => some (reg3, evs ++ evs2)

/-- Whether an event is a frame-callback request for the given surface. -/
def isFrameRequest (surface : WindowId) : Event → Bool
  | Event.frameRequested s => s == surface
  | _ => false

/-- Number of frame-callback requests for a surface in a trace. -/
def countFrameRequests (evs : List Event) (surface : WindowId) : Nat :=
  (evs.filter (isFrameRequest surface)).length

/-- Possible observations of the run-loop idle-drain closure after a
bounded number of `try_recv` steps. -/
inductive LoopOutcome
  | returned
  | stillRunning
  | panicked
  deriving DecidableEq, Repr

/-- The closure `Application::run` installs on the event loop
(application.rs): `loop { match idle_callbacks.try_recv() { Ok(cb) =>
cb(state), Err(Empty) => (), Err(Disconnected) => unreachable!(..) } }`.
Queued callbacks are opaque tokens; `fuel` bounds the number of
`try_recv` steps observed.  No branch of the loop breaks, so the only
outcomes are still running (fuel exhausted) or the `unreachable!`
panic on a drained, disconnected channel. -/
def runIdleLoop : Nat → Bool → List Nat → LoopOutcome
  | 0, _, _ => LoopOutcome.stillRunning
  | fuel + 1, connected, _cb :: rest => runIdleLoop fuel connected rest
  | fuel + 1, true, [] => runIdleLoop fuel true []
  | _ + 1, false, [] => LoopOutcome.panicked

/-- A live properties record used to instantiate handle-level theorems. -/
def sampleProps : WindowProperties :=
  { requested_size := none
    current_size := ⟨800, 600⟩
    current_scale := ⟨1, 1⟩
    wayland_window := some ⟨0⟩ }

/-- C1: on a live properties cell, `set_size s` stores `s` into
`requested_size` and enqueues `ActiveAction::Window(id, ResizeRequested)`,
leaves `current_size` untouched, and a `get_size` against the updated
cell before the dispatch thread runs still returns the prior
`current_size`, never the unapplied `requested_size`. -/
theorem set_size_deferred_get_size_stale (p : WindowProperties)
    (ww : WaylandWindow) (s : Size) (halive : p.wayland_window = some ww) :
    WindowHandle.set_size (some p) true s =
      some ({ p with requested_size := some s },
            ActiveAction.Window ww.surface WindowAction.ResizeRequested) ∧
    ({ p with requested_size := some s } : WindowProperties).current_size
        = p.current_size ∧
    WindowHandle.get_size (some { p with requested_size := some s })
        = some p.current_size := by
  refine ⟨?_, rfl, rfl⟩
  simp [WindowHandle.set_size, WindowHandle.defer, WindowHandle.id, halive]

/-- Witness for C1 at a concrete live window of size 800×600 and a
request of 320×240. -/
theorem set_size_deferred_get_size_stale_witness :
    WindowHandle.set_size (some sampleProps) true ⟨320, 240⟩ =
      some ({ sampleProps with requested_size := some ⟨320, 240⟩ },
            ActiveAction.Window 0 WindowAction.ResizeRequested) ∧
    ({ sampleProps with requested_size := some ⟨320, 240⟩ } : WindowProperties).current_size
        = sampleProps.current_size ∧
    WindowHandle.get_size (some { sampleProps with requested_size := some ⟨320, 240⟩ })
        = some sampleProps.current_size :=
  set_size_deferred_get_size_stale sampleProps ⟨0⟩ ⟨320, 240⟩ rfl

/-- C2: the dispatch thread, running `ResizeRequested` for a registered
window with a pending `requested_size = some s`, sets `current_size` to
`s`, invokes the handler's `size` exactly once with `s`, then requests a
frame callback on the window's surface; with no pending size the run is
the `expect` panic. -/
theorem resize_apply_sets_size_then_frame (reg : Registry) (wid : WindowId)
    (w : WindowState) (hl : lookupW reg wid = some w) :
    (∀ s, w.properties.requested_size = some s →
      WindowAction.run WindowAction.ResizeRequested reg wid =
        some (updateW reg wid
                { w with properties := { w.properties with current_size := s } },
              [Event.propsUpdated wid, Event.handlerSize wid s,
               Event.frameRequested w.wayland_window.surface])) ∧
    (w.properties.requested_size = none →
      WindowAction.run WindowAction.ResizeRequested reg wid = none) := by
  constructor
  · intro s hs
    simp [WindowAction.run, hl, hs]
  · intro hn
    simp [WindowAction.run, hl, hn]

/-- A registered window with surface 7 and a pending 100×200 resize. -/
def c2W : WindowState :=
  { wayland_window := ⟨7⟩
    properties := { requested_size := some ⟨100, 200⟩
                    current_size := ⟨800, 600⟩
                    current_scale := ⟨1, 1⟩
                    wayland_window := some ⟨7⟩ } }

/-- Registry holding exactly `c2W` under key 5. -/
def c2Reg : Registry := [(5, c2W)]

/-- Witness for C2: the concrete resize apply on `c2Reg`. -/
theorem resize_apply_sets_size_then_frame_witness :
    WindowAction.run WindowAction.ResizeRequested c2Reg 5 =
      some (updateW c2Reg 5
              { c2W with properties :=
                  { c2W.properties with current_size := ⟨100, 200⟩ } },
            [Event.propsUpdated 5, Event.handlerSize 5 ⟨100, 200⟩,
             Event.frameRequested 7]) :=
  (resize_apply_sets_size_then_frame c2Reg 5 c2W rfl).1 ⟨100, 200⟩ rfl

/-- C3: a scale-changed event for a registered window computes the new
size by the pixel-space round trip (`to_px` at the old scale, `to_dp` at
the new), updates `current_scale` and `current_size` in the properties
cell before calling out, then invokes handler `scale` followed by
handler `size`, in that order. -/
theorem scale_changed_roundtrip_then_scale_size (reg : Registry)
    (wid : WindowId) (w : WindowState) (f : Int)
    (hl : lookupW reg wid = some w) :
    scale_factor_changed reg wid f =
      some (updateW reg wid
              { w with properties :=
                  { w.properties with
                      current_scale := ⟨(f : Rat), (f : Rat)⟩,
                      current_size :=
                        (w.properties.current_size.to_px
                            w.properties.current_scale).to_dp
                          ⟨(f : Rat), (f : Rat)⟩ } },
            [Event.propsUpdated wid,
             Event.handlerScale wid ⟨(f : Rat), (f : Rat)⟩,
             Event.handlerSize wid
               ((w.properties.current_size.to_px
                   w.properties.current_scale).to_dp
                 ⟨(f : Rat), (f : Rat)⟩)]) := by
  simp [scale_factor_changed, hl]

/-- A registered window with surface 3 at scale 1 and size 800×600. -/
def c3W : WindowState :=
  { wayland_window := ⟨3⟩
    properties := { requested_size := none
                    current_size := ⟨800, 600⟩
                    current_scale := ⟨1, 1⟩
                    wayland_window := some ⟨3⟩ } }

/-- Registry holding exactly `c3W` under key 3. -/
def c3Reg : Registry := [(3, c3W)]

/-- Witness for C3: the concrete scale change to factor 2 on `c3Reg`. -/
theorem scale_changed_roundtrip_then_scale_size_witness :
    scale_factor_changed c3Reg 3 2 =
      some (updateW c3Reg 3
              { c3W with properties :=
                  { c3W.properties with
                      current_scale := ⟨((2 : Int) : Rat), ((2 : Int) : Rat)⟩,
                      current_size :=
                        (c3W.properties.current_size.to_px
                            c3W.properties.current_scale).to_dp
                          ⟨((2 : Int) : Rat), ((2 : Int) : Rat)⟩ } },
            [Event.propsUpdated 3,
             Event.handlerScale 3 ⟨((2 : Int) : Rat), ((2 : Int) : Rat)⟩,
             Event.handlerSize 3
               ((c3W.properties.current_size.to_px
                   c3W.properties.current_scale).to_dp
                 ⟨((2 : Int) : Rat), ((2 : Int) : Rat)⟩)]) :=
  scale_changed_roundtrip_then_scale_size c3Reg 3 c3W 2 rfl

/-- C4 counterexample: calling `close()` on a handle after the window
state was removed (the weak properties reference no longer upgrades)
panics inside `properties()` — it does not merely log. -/
theorem close_after_removal_panics :
    WindowHandle.close none true = none := rfl

/-- C4 (amended): two deliveries of `Close` for the same window perform
exactly one registry removal and exactly one stop-if-empty evaluation
(which stops the loop when the registry became empty); the second
delivery only logs "Tried to close the same window twice" and performs
no removal, no stop evaluation and no handler call. -/
theorem close_twice_one_removal_one_stop_eval (w : WindowId)
    (ws : WindowState) :
    WindowAction.run WindowAction.Close [(w, ws)] w =
      some ([], [Event.stopCheck true, Event.loopStop]) ∧
    WindowAction.run WindowAction.Close [] w =
      some ([], [Event.log LogMsg.closeTwice]) := by
  constructor
  · simp [WindowAction.run, lookupW, removeW]
  · simp [WindowAction.run, lookupW]

/-- C5 counterexample: a scale-changed event whose surface has no
registry entry is the `expect("Should only get events for real
windows")` panic, not a silent ignore. -/
theorem scale_changed_unregistered_panics :
    scale_factor_changed [] 0 2 = none := rfl

/-- C5 (amended): frame-ready, request-close and configure events for an
unregistered surface return silently without handler calls; a
scale-changed event for an unregistered surface panics. -/
theorem unregistered_events_ignored_except_scale (reg : Registry)
    (s : WindowId) (t : Nat) (f : Int) (h : lookupW reg s = none) :
    frame reg s t = some (reg, []) ∧
    request_close reg s = some (reg, []) ∧
    configure reg s = some (reg, []) ∧
    scale_factor_changed reg s f = none := by
  refine ⟨?_, ?_, ?_, ?_⟩ <;>
    simp [frame, request_close, configure, scale_factor_changed, h]

/-- Witness for C5 (amended) on the empty registry. -/
theorem unregistered_events_ignored_except_scale_witness :
    frame [] 0 0 = some ([], []) ∧
    request_close [] 0 = some ([], []) ∧
    configure [] 0 = some ([], []) ∧
    scale_factor_changed [] 0 3 = none :=
  unregistered_events_ignored_except_scale [] 0 0 3 rfl

/-- C6 counterexample: deferring a window action (the path taken by
`set_size` and `close`) with the dispatch-thread consumer gone is the
`expect` panic on the channel send, not a logged return. -/
theorem defer_disconnected_panics :
    WindowHandle.defer (some sampleProps) false WindowAction.Close = none := rfl

/-- C6 (amended): with the dispatch-thread consumer gone,
`add_idle_token` logs and returns normally and `add_idle_callback`
silently discards the send error; but `defer` (hence `set_size` and
`close`) and `run_on_main` panic via `expect`. -/
theorem enqueue_disconnected_behaviour :
    (∀ w tok, IdleHandle.add_idle_token false w tok =
        some ([], [Event.log LogMsg.idleSendInvalidApp])) ∧
    (∀ w, IdleHandle.add_idle_callback false w = some ([], [])) ∧
    (∀ a, WindowHandle.defer (some sampleProps) false a = none) ∧
    AppHandle.run_on_main_inner false = none :=
  ⟨fun _ _ => rfl, fun _ => rfl, fun _ => rfl, rfl⟩

/-- C7: the idle-drain closure installed by `Application::run` can never
return control to the event loop (no branch of its `loop` breaks): on an
empty connected channel it spins forever, and on a disconnected channel
it panics via `unreachable!`. -/
theorem idle_drain_loop_never_returns :
    (∀ fuel connected q,
        runIdleLoop fuel connected q ≠ LoopOutcome.returned) ∧
    runIdleLoop 5 true [] = LoopOutcome.stillRunning ∧
    runIdleLoop 1 false [] = LoopOutcome.panicked := by
  refine ⟨?_, rfl, rfl⟩
  intro fuel
  induction fuel with
  | zero =>
    intro connected q
    simp [runIdleLoop]
  | succ n ih =>
    intro connected q
    cases q with
    | nil =>
      cases connected with
      | false => simp [runIdleLoop]
      | true => simpa [runIdleLoop] using ih true []
    | cons c rest => simpa [runIdleLoop] using ih connected rest

/-- A registered window with surface 7, key 7 and a pending 100×100
resize, for the frame-coalescing scenario. -/
def c8W : WindowState :=
  { wayland_window := ⟨7⟩
    properties := { requested_size := some ⟨100, 100⟩
                    current_size := ⟨800, 600⟩
                    current_scale := ⟨1, 1⟩
                    wayland_window := some ⟨7⟩ } }

/-- C8: two back-to-back `ResizeRequested` actions for the same window,
processed before any frame event, request two frame callbacks on the
same surface — nothing coalesces them to at most one. -/
theorem resize_actions_stack_frame_requests :
    (runActions
        [(WindowAction.ResizeRequested, 7), (WindowAction.ResizeRequested, 7)]
        [(7, c8W)]).map (fun r => countFrameRequests r.2 7) = some 2 := by
  rfl

/-- C9 counterexample: `get_scale` on a handle whose window was
destroyed is the `unwrap` panic on the failed weak upgrade — it never
produces the typed error the claim promises. -/
theorem get_scale_dead_handle_panics :
    WindowHandle.get_scale none = none ∧
    WindowHandle.get_scale none ≠ some (Except.error ShellError.platform) := by
  exact ⟨rfl, by simp [WindowHandle.get_scale]⟩

/-- C9 (amended): `get_scale` returns `Ok(current_scale)` while the
window is alive; when the weak properties reference no longer upgrades
it panics rather than returning an `Err`. -/
theorem get_scale_ok_when_alive_panic_when_dead (p : WindowProperties) :
    WindowHandle.get_scale (some p) = some (Except.ok p.current_scale) ∧
    WindowHandle.get_scale none = none :=
  ⟨rfl, rfl⟩

/-- C10: `get_window_state` returns `Maximized` unconditionally, for any
upgrade result and any previously requested state: it agrees with a
state `st` exactly when `st` is `Maximized`, so it never reflects
`Minimized` or `Restored`. -/
theorem get_window_state_always_maximized (u : Option WindowProperties)
    (st : PubWindowState) :
    WindowHandle.get_window_state u = PubWindowState.Maximized ∧
    (WindowHandle.get_window_state u = st ↔ st = PubWindowState.Maximized) :=
  ⟨rfl, eq_comm⟩
